import Mathlib

/-!
Shallow embedding of the River-Balance core (`docs/js/balance.js` and the
seed/pseudo-random utilities of `docs/js/planView.js`).

JavaScript numbers are modelled as real numbers; the one IEEE special value
the code can produce (`Infinity`, returned by `calculateRatio` when the
water-side term is zero) is modelled by the two-constructor type `JSNum`.
`Math.min` / `Math.max` on such values follow the IEEE rules
(`Math.min(a, Infinity) = a`, `Math.max(a, Infinity) = Infinity`), which
`jsMin` / `jsMax` encode structurally.
-/

/-- A JavaScript number as produced by the balance core: either an ordinary
(real) number or positive infinity. `NaN` and negative infinity are never
produced by the embedded functions. -/
inductive JSNum where
  | fin (x : ℝ)
  | inf
deriving Inhabited

/-- `Math.min` restricted to the values the core produces:
`Math.min(a, Infinity) = a`. -/
def jsMin : JSNum → JSNum → JSNum
  | .fin x, .fin y => .fin (min x y)
  | .fin x, .inf => .fin x
  | .inf, .fin y => .fin y
  | .inf, .inf => .inf

/-- `Math.max` restricted to the values the core produces:
`Math.max(a, Infinity) = Infinity`. -/
def jsMax : JSNum → JSNum → JSNum
  | .fin x, .fin y => .fin (max x y)
  | .fin _, .inf => .inf
  | .inf, _ => .inf

/-- `Math.log10` on a finite JavaScript number.  Every call site in the
embedded code first clamps its argument to the interval `[0.01, 100]`, so
the infinite case is unreachable; it is given the junk value `0`. -/
noncomputable def jsLog10 : JSNum → ℝ
  | .fin x => Real.logb 10 x
  | .inf => 0

/-- The JavaScript comparison `a < b` for a possibly-infinite left operand
and a finite right operand: `Infinity < b` is `false`. -/
def jsLtR : JSNum → ℝ → Prop
  | .fin x, b => x < b
  | .inf, _ => False

/-- The JavaScript comparison `a > b` for a possibly-infinite left operand
and a finite right operand: `Infinity > b` is `true`. -/
def jsGtR : JSNum → ℝ → Prop
  | .fin x, b => b < x
  | .inf, _ => True

noncomputable instance : ∀ (a : JSNum) (b : ℝ), Decidable (jsLtR a b)
  | .fin x, b => inferInstanceAs (Decidable (x < b))
  | .inf, _ => inferInstanceAs (Decidable False)

noncomputable instance : ∀ (a : JSNum) (b : ℝ), Decidable (jsGtR a b)
  | .fin x, b => inferInstanceAs (Decidable (b < x))
  | .inf, _ => inferInstanceAs (Decidable True)

/-- The JavaScript order `a <= b` on possibly-infinite numbers
(`x <= Infinity` is `true`, `Infinity <= x` is `false` for finite `x`). -/
def jsLe : JSNum → JSNum → Prop
  | .fin x, .fin y => x ≤ y
  | .fin _, .inf => True
  | .inf, .fin _ => False
  | .inf, .inf => True

namespace Balance

/-- `balance.js` `mapD50`: map the D50 slider (1-100) to a log-scaled value,
`10 ^ (-1 + 3 * ((value - 1) / 99))`. -/
noncomputable def mapD50 (value : ℝ) : ℝ :=
  (10 : ℝ) ^ (-1 + 3 * ((value - 1) / 99))

/-- `balance.js` `mapSlope`: map the slope slider (1-100) to
`0.1 + (value / 100) * 5.906`. -/
noncomputable def mapSlope (value : ℝ) : ℝ :=
  0.1 + (value / 100) * 5.906

/-- `balance.js` `calculateRatio`: sediment term over water term, returning
`Infinity` when the water term is exactly zero. -/
noncomputable def calculateRatio (Qs D50 Qw S : ℝ) : JSNum :=
  let sedimentTerm := Qs * mapD50 D50
  let waterTerm := Qw * mapSlope S
  if waterTerm = 0 then JSNum.inf else JSNum.fin (sedimentTerm / waterTerm)

/-- `balance.js` `getImbalanceIndex`:
`Math.log10(Math.max(0.01, Math.min(100, ratio)))`.  The clamp always
produces a finite number (even for `ratio = Infinity`), so the result is a
real number. -/
noncomputable def getImbalanceIndex (ratio : JSNum) : ℝ :=
  jsLog10 (jsMax (JSNum.fin 0.01) (jsMin (JSNum.fin 100) ratio))

/-- `balance.js` `getState`: classify the regime from the imbalance index
with the ±0.05 dead band. -/
noncomputable def getState (ratio : JSNum) : String :=
  let imbalance := getImbalanceIndex ratio
  if imbalance < -0.05 then "degradation"
  else if imbalance > 0.05 then "aggradation"
  else "equilibrium"

/-- `balance.js` `calculateTiltAngle`: clamp the ratio to `[0.1, 10]`, take
the natural log, scale to ±30 degrees, and negate. -/
noncomputable def calculateTiltAngle (ratio : ℝ) : ℝ :=
  let clampedRatio := max 0.1 (min 10 ratio)
  let logRatio := Real.log clampedRatio
  let maxAngle : ℝ := 30
  let scaleFactor := maxAngle / Real.log 10;
  -logRatio * scaleFactor

/-- `balance.js` `calculateStreamPower`: `(Qw * S) / (100 * 100)`. -/
noncomputable def calculateStreamPower (Qw S : ℝ) : ℝ :=
  (Qw * S) / (100 * 100)

/-- The aggradation contribution computed inside `getChannelPattern`:
`ratio > 1 ? Math.min((ratio - 1) * 0.3, 0.3) : 0`.  For `ratio = Infinity`
JavaScript evaluates `Infinity > 1` to `true`, `(Infinity - 1) * 0.3` to
`Infinity`, and `Math.min(Infinity, 0.3)` to `0.3`. -/
noncomputable def aggradationFactor : JSNum → ℝ
  | .fin r => if r > 1 then min ((r - 1) * 0.3) 0.3 else 0
  | .inf => 0.3

/-- The braiding index computed inside `getChannelPattern`:
`(sedimentLoad * 0.35) + (grainSize * 0.25) + aggradationFactor` with
`sedimentLoad = Qs / 100` and `grainSize = D50 / 100`. -/
noncomputable def braidingIndex (Qs D50 : ℝ) (ratio : JSNum) : ℝ :=
  (Qs / 100) * 0.35 + (D50 / 100) * 0.25 + aggradationFactor ratio

/-- `balance.js` `getChannelPattern`: braided when the braiding index
exceeds 0.5, else straight when the normalized discharge is below 0.15,
else meandering. -/
noncomputable def getChannelPattern (Qs D50 Qw S : ℝ) (ratio : JSNum) : String :=
  let discharge := Qw / 100
  let slope := S / 100
  let streamPower := discharge * slope
  if braidingIndex Qs D50 ratio > 0.5 then "braided"
  else if discharge < 0.15 then "straight"
  else "meandering"

/-- One entry of the `getActiveProcesses` result: a process name tagged with
the regime it belongs to. -/
structure Process where
  name : String
  type : String
deriving DecidableEq

/-- `balance.js` `getActiveProcesses`: the ordered, regime-specific process
list. -/
noncomputable def getActiveProcesses (ratio : JSNum) (Qw S : ℝ) : List Process :=
  let state := getState ratio
  let streamPower := calculateStreamPower Qw S
  if state = "degradation" then
    [{ name := "Bed incision", type := "degradation" }] ++
    (if streamPower > 0.3 then [{ name := "Bank erosion", type := "degradation" }] else []) ++
    (if streamPower > 0.5 then [{ name := "Knickpoint migration", type := "degradation" }] else []) ++
    (if jsLtR ratio 0.5 then [{ name := "Bed armoring", type := "degradation" }] else [])
  else if state = "aggradation" then
    [{ name := "Bar formation", type := "aggradation" }] ++
    (if jsGtR ratio 1.5 then [{ name := "Channel widening", type := "aggradation" }] else []) ++
    (if jsGtR ratio 2 then [{ name := "Avulsion risk", type := "aggradation" }] else []) ++
    [{ name := "Overbank deposition", type := "aggradation" }]
  else
    [{ name := "Sediment transport balance", type := "equilibrium" },
     { name := "Dynamic equilibrium", type := "equilibrium" }]

end Balance

namespace PlanView

/-- `planView.js` `pseudoRandom`: `x = Math.sin(seed) * 10000`, return
`x - Math.floor(x)`. -/
noncomputable def pseudoRandom (seed : ℝ) : ℝ :=
  let x := Real.sin seed * 10000
  x - ↑⌊x⌋

/-- `planView.js` `computeSeed`: pack the four slider values and a coarse
bucketing of the ratio into one number.  `Math.round` is Mathlib's `round`
(round half toward positive infinity). -/
noncomputable def computeSeed (Qs D50 Qw S ratio : ℝ) : ℝ :=
  let ratioKey :=
    max 0 (min 999 ((round (Real.logb 10 (max 0.01 ratio) * 100 + 500) : ℤ) : ℝ))
  ((Qs * 1000 + D50) * 1000 + Qw) * 1000 + S + ratioKey / 1000

end PlanView

/-! ### Helper lemmas -/

theorem le_ten_rpow (c e : ℝ) (p q : ℕ) (hq : q ≠ 0) (he : e * q = p) (_hc : 0 ≤ c)
    (h : c ^ q ≤ (10:ℝ) ^ p) : c ≤ (10:ℝ) ^ e := by
  have hpow : ((10:ℝ) ^ e) ^ q = (10:ℝ) ^ p := by
    rw [← Real.rpow_natCast ((10:ℝ) ^ e) q, ← Real.rpow_mul (by norm_num : (0:ℝ) ≤ 10), he,
      Real.rpow_natCast]
  exact le_of_pow_le_pow_left₀ hq (Real.rpow_pos_of_pos (by norm_num) e).le (by rw [hpow]; exact h)

theorem ten_rpow_le (c e : ℝ) (p q : ℕ) (hq : q ≠ 0) (he : e * q = p) (hc : 0 ≤ c)
    (h : (10:ℝ) ^ p ≤ c ^ q) : (10:ℝ) ^ e ≤ c := by
  have hpow : ((10:ℝ) ^ e) ^ q = (10:ℝ) ^ p := by
    rw [← Real.rpow_natCast ((10:ℝ) ^ e) q, ← Real.rpow_mul (by norm_num : (0:ℝ) ≤ 10), he,
      Real.rpow_natCast]
  exact le_of_pow_le_pow_left₀ hq hc (by rw [hpow]; exact h)

theorem logb10_le (c e : ℝ) (p q : ℕ) (hq : q ≠ 0) (he : e * q = p) (hc : 0 < c)
    (h : c ^ q ≤ (10:ℝ) ^ p) : Real.logb 10 c ≤ e := by
  rw [Real.logb_le_iff_le_rpow (by norm_num) hc]
  exact le_ten_rpow c e p q hq he hc.le h

theorem le_logb10 (c e : ℝ) (p q : ℕ) (hq : q ≠ 0) (he : e * q = p) (hc : 0 < c)
    (h : (10:ℝ) ^ p ≤ c ^ q) : e ≤ Real.logb 10 c := by
  rw [Real.le_logb_iff_rpow_le (by norm_num) hc]
  exact ten_rpow_le c e p q hq he hc.le h

theorem logb10_hundred : Real.logb 10 (100:ℝ) = 2 := by
  have h : (100:ℝ) = (10:ℝ) ^ (2:ℝ) := by
    rw [show (2:ℝ) = ((2:ℕ):ℝ) by norm_num, Real.rpow_natCast]; norm_num
  rw [h, Real.logb_rpow (by norm_num) (by norm_num)]

theorem logb10_centi : Real.logb 10 (0.01:ℝ) = -2 := by
  rw [show (0.01:ℝ) = (100:ℝ)⁻¹ by norm_num, Real.logb_inv, logb10_hundred]

namespace Balance

theorem mapD50_pos (v : ℝ) : 0 < mapD50 v :=
  Real.rpow_pos_of_pos (by norm_num) _

theorem mapSlope_pos (v : ℝ) (hv : 0 ≤ v) : 0 < mapSlope v := by
  simp only [mapSlope]
  nlinarith

theorem mapSlope_50 : mapSlope 50 = 3.053 := by
  simp only [mapSlope]; norm_num

theorem mapD50_50 : mapD50 50 = (10:ℝ) ^ ((16:ℝ)/33) := by
  have h : (-1 + 3 * (((50:ℝ) - 1) / 99)) = (16:ℝ)/33 := by norm_num
  rw [mapD50, h]

theorem mapD50_100 : mapD50 100 = 100 := by
  have h : (-1 + 3 * (((100:ℝ) - 1) / 99)) = ((2:ℕ):ℝ) := by norm_num
  rw [mapD50, h, Real.rpow_natCast]
  norm_num

theorem mapD50_10 : mapD50 10 = (10:ℝ) ^ (-(8:ℝ)/11) := by
  have h : (-1 + 3 * (((10:ℝ) - 1) / 99)) = -(8:ℝ)/11 := by norm_num
  rw [mapD50, h]

theorem getImbalanceIndex_fin (x : ℝ) :
    getImbalanceIndex (JSNum.fin x) = Real.logb 10 (max 0.01 (min 100 x)) := rfl

theorem calculateRatio_fin (Qs D50 Qw S : ℝ) (h : Qw * mapSlope S ≠ 0) :
    calculateRatio Qs D50 Qw S = JSNum.fin ((Qs * mapD50 D50) / (Qw * mapSlope S)) := by
  simp only [calculateRatio]
  rw [if_neg h]

theorem getState_cases (ratio : JSNum) :
    getState ratio = "degradation" ∨ getState ratio = "aggradation" ∨
      getState ratio = "equilibrium" := by
  simp only [getState]
  split_ifs <;> simp

end Balance

/-! ### Claim theorems -/

/-- C8: `calculateRatio` returns the positive-infinity sentinel exactly when
the water term `Qw * mapSlope S` is zero; with all four parameters in
`[1, 100]` the water term is strictly positive, so the ratio is a finite
positive number. -/
theorem c8_division_guard (Qs D50 Qw S : ℝ) :
    (Balance.calculateRatio Qs D50 Qw S = JSNum.inf ↔ Qw * Balance.mapSlope S = 0) ∧
    (1 ≤ Qs → Qs ≤ 100 → 1 ≤ D50 → D50 ≤ 100 → 1 ≤ Qw → Qw ≤ 100 → 1 ≤ S → S ≤ 100 →
      0 < Qw * Balance.mapSlope S ∧
      ∃ r : ℝ, Balance.calculateRatio Qs D50 Qw S = JSNum.fin r ∧ 0 < r) := by
  constructor
  · simp only [Balance.calculateRatio]
    split_ifs with h
    · simp [h]
    · simp [h]
  · intro hQs _ _ _ hQw _ hS _
    have hms : 0 < Balance.mapSlope S := Balance.mapSlope_pos S (by linarith)
    have hw : 0 < Qw * Balance.mapSlope S := mul_pos (by linarith) hms
    refine ⟨hw, (Qs * Balance.mapD50 D50) / (Qw * Balance.mapSlope S), ?_, ?_⟩
    · exact Balance.calculateRatio_fin Qs D50 Qw S hw.ne'
    · exact div_pos (mul_pos (by linarith) (Balance.mapD50_pos D50)) hw

/-- C8 witness: the guard characterization and the finite positive result at
the midpoint parameters. -/
theorem c8_division_guard_witness :
    (Balance.calculateRatio 50 50 50 50 = JSNum.inf ↔ (50:ℝ) * Balance.mapSlope 50 = 0) ∧
    (0 < (50:ℝ) * Balance.mapSlope 50 ∧
      ∃ r : ℝ, Balance.calculateRatio 50 50 50 50 = JSNum.fin r ∧ 0 < r) :=
  ⟨(c8_division_guard 50 50 50 50).1,
    (c8_division_guard 50 50 50 50).2 (by norm_num) (by norm_num) (by norm_num) (by norm_num)
      (by norm_num) (by norm_num) (by norm_num) (by norm_num)⟩

/-- C10: the infinite-ratio sentinel is absorbed downstream: the imbalance
index of `Infinity` is exactly `2` (log10 of the clamp at 100) and the regime
is `aggradation`. -/
theorem c10_infinite_sentinel_absorbed :
    Balance.getImbalanceIndex JSNum.inf = 2 ∧ Balance.getState JSNum.inf = "aggradation" := by
  have h : Balance.getImbalanceIndex JSNum.inf = 2 := by
    show Real.logb 10 (max 0.01 100) = 2
    rw [max_eq_right (by norm_num : (0.01:ℝ) ≤ 100), logb10_hundred]
  refine ⟨h, ?_⟩
  simp only [Balance.getState, h]
  rw [if_neg (by norm_num), if_pos (by norm_num)]

/-- C7: odd symmetry of the imbalance index under ratio inversion: for
`0 < r ≤ 100`, `getImbalanceIndex r = -getImbalanceIndex (1/r)` (exactly, in
the real-number model). -/
theorem c7_imbalance_odd_symmetry (r : ℝ) (h0 : 0 < r) (h100 : r ≤ 100) :
    Balance.getImbalanceIndex (JSNum.fin r) = -Balance.getImbalanceIndex (JSNum.fin (1 / r)) := by
  rw [Balance.getImbalanceIndex_fin, Balance.getImbalanceIndex_fin]
  by_cases hr : 0.01 ≤ r
  · have hinv_lo : (0.01:ℝ) ≤ 1 / r := by
      rw [show (0.01:ℝ) = 1 / 100 by norm_num]
      exact one_div_le_one_div_of_le h0 h100
    have hinv_hi : 1 / r ≤ 100 := by
      calc 1 / r ≤ 1 / 0.01 := one_div_le_one_div_of_le (by norm_num) hr
      _ = 100 := by norm_num
    rw [min_eq_right h100, max_eq_right hr, min_eq_right hinv_hi, max_eq_right hinv_lo,
      one_div, Real.logb_inv, neg_neg]
  · push_neg at hr
    have h1 : (100:ℝ) < 1 / r := by
      rw [lt_div_iff₀ h0]
      nlinarith
    rw [min_eq_right (by linarith : r ≤ 100), max_eq_left (le_of_lt hr),
      min_eq_left (le_of_lt h1), max_eq_right (by norm_num : (0.01:ℝ) ≤ 100),
      logb10_centi, logb10_hundred]

/-- C7 witness: the symmetry instantiated at `r = 4`. -/
theorem c7_imbalance_odd_symmetry_witness :
    (0:ℝ) < 4 ∧ (4:ℝ) ≤ 100 ∧
      Balance.getImbalanceIndex (JSNum.fin 4) = -Balance.getImbalanceIndex (JSNum.fin (1 / 4)) :=
  ⟨by norm_num, by norm_num, c7_imbalance_odd_symmetry 4 (by norm_num) (by norm_num)⟩

/-- C5: seed and pseudo-randomness are deterministic: identical argument
tuples give identical seeds, and `pseudoRandom` gives the identical value in
`[0, 1)` for the same input, with no dependence on external state. -/
theorem c5_seed_determinism :
    (∀ Qs D50 Qw S ratio Qt D50t Qwt St ratiot : ℝ,
      (Qs, D50, Qw, S, ratio) = (Qt, D50t, Qwt, St, ratiot) →
      PlanView.computeSeed Qs D50 Qw S ratio = PlanView.computeSeed Qt D50t Qwt St ratiot) ∧
    (∀ n : ℝ, PlanView.pseudoRandom n = PlanView.pseudoRandom n ∧
      0 ≤ PlanView.pseudoRandom n ∧ PlanView.pseudoRandom n < 1) := by
  constructor
  · intro Qs D50 Qw S ratio Qt D50t Qwt St ratiot h
    obtain ⟨h1, h2, h3, h4, h5⟩ : Qs = Qt ∧ D50 = D50t ∧ Qw = Qwt ∧ S = St ∧ ratio = ratiot := by
      simpa using h
    simp_all
  · intro n
    have hf : PlanView.pseudoRandom n = Int.fract (Real.sin n * 10000) := rfl
    exact ⟨rfl, by rw [hf]; exact Int.fract_nonneg _, by rw [hf]; exact Int.fract_lt_one _⟩

/-- C5 witness: the determinism equations at a concrete tuple and a concrete
pseudo-random input. -/
theorem c5_seed_determinism_witness :
    ((50:ℝ), (50:ℝ), (50:ℝ), (50:ℝ), (1:ℝ)) = ((50:ℝ), (50:ℝ), (50:ℝ), (50:ℝ), (1:ℝ)) ∧
    PlanView.computeSeed 50 50 50 50 1 = PlanView.computeSeed 50 50 50 50 1 ∧
    (0 ≤ PlanView.pseudoRandom 7 ∧ PlanView.pseudoRandom 7 < 1) :=
  ⟨rfl, c5_seed_determinism.1 50 50 50 50 1 50 50 50 50 1 rfl,
    (c5_seed_determinism.2 7).2⟩

/-- C6: the tilt angle saturates at `+30` degrees for ratios at or below
`0.1` and at `-30` degrees for ratios at or above `10`, stays within
`[-30, 30]` for every positive ratio (clamped, never extrapolated), and is
negative for every ratio above `1`. -/
theorem c6_tilt_angle_saturation (ratio : ℝ) :
    (ratio ≤ 0.1 → Balance.calculateTiltAngle ratio = 30) ∧
    (10 ≤ ratio → Balance.calculateTiltAngle ratio = -30) ∧
    (0 < ratio →
      -30 ≤ Balance.calculateTiltAngle ratio ∧ Balance.calculateTiltAngle ratio ≤ 30) ∧
    (1 < ratio → Balance.calculateTiltAngle ratio < 0) := by
  have hlt : 0 < Real.log 10 := Real.log_pos (by norm_num)
  have hbody : ∀ x : ℝ,
      Balance.calculateTiltAngle x = -Real.log (max 0.1 (min 10 x)) * (30 / Real.log 10) :=
    fun x => rfl
  have hlog_point_one : Real.log (0.1:ℝ) = -Real.log 10 := by
    rw [show (0.1:ℝ) = (10:ℝ)⁻¹ by norm_num, Real.log_inv]
  refine ⟨?_, ?_, ?_, ?_⟩
  · intro h
    rw [hbody, min_eq_right (by linarith : ratio ≤ 10), max_eq_left h, hlog_point_one]
    field_simp
  · intro h
    rw [hbody, min_eq_left h, max_eq_right (by norm_num : (0.1:ℝ) ≤ 10)]
    field_simp
    ring
  · intro _
    rw [hbody]
    set c := max 0.1 (min 10 ratio) with hc
    have hc_lo : (0.1:ℝ) ≤ c := le_max_left _ _
    have hc_hi : c ≤ 10 := max_le (by norm_num) (min_le_left _ _)
    have hlog_up : Real.log c ≤ Real.log 10 := Real.log_le_log (by linarith) hc_hi
    have hlog_lo : -Real.log 10 ≤ Real.log c := by
      rw [← hlog_point_one]
      exact Real.log_le_log (by norm_num) hc_lo
    have hk : (0:ℝ) < 30 / Real.log 10 := by positivity
    have hcancel : Real.log 10 * (30 / Real.log 10) = 30 := by field_simp
    constructor
    · nlinarith [mul_le_mul_of_nonneg_right hlog_up hk.le]
    · nlinarith [mul_le_mul_of_nonneg_right hlog_lo hk.le]
  · intro h
    rw [hbody]
    have hc_gt : 1 < max 0.1 (min 10 ratio) :=
      lt_max_of_lt_right (lt_min (by norm_num) h)
    have hlogc : 0 < Real.log (max 0.1 (min 10 ratio)) := Real.log_pos hc_gt
    have hk : (0:ℝ) < 30 / Real.log 10 := by positivity
    nlinarith

/-- C6 witness: saturation at `0.05` and `100`, the bound and the sign at
`2`. -/
theorem c6_tilt_angle_saturation_witness :
    ((0.05:ℝ) ≤ 0.1 ∧ Balance.calculateTiltAngle 0.05 = 30) ∧
    ((10:ℝ) ≤ 100 ∧ Balance.calculateTiltAngle 100 = -30) ∧
    ((0:ℝ) < 2 ∧ -30 ≤ Balance.calculateTiltAngle 2 ∧ Balance.calculateTiltAngle 2 ≤ 30) ∧
    ((1:ℝ) < 2 ∧ Balance.calculateTiltAngle 2 < 0) :=
  ⟨⟨by norm_num, (c6_tilt_angle_saturation 0.05).1 (by norm_num)⟩,
    ⟨by norm_num, (c6_tilt_angle_saturation 100).2.1 (by norm_num)⟩,
    ⟨by norm_num, (c6_tilt_angle_saturation 2).2.2.1 (by norm_num)⟩,
    ⟨by norm_num, (c6_tilt_angle_saturation 2).2.2.2 (by norm_num)⟩⟩

/-- C3 counterexample: the claim says out-of-range parameters are rejected
with an error, but the code performs no domain validation: at the
out-of-range input `0`, `mapSlope` silently computes `0.1`, and
`calculateRatio` with the out-of-range `Qw = 0` silently returns the
`Infinity` sentinel of the division-by-zero guard instead of failing. -/
theorem c3_counterexample :
    Balance.mapSlope 0 = 0.1 ∧ Balance.calculateRatio 50 50 0 50 = JSNum.inf := by
  constructor
  · simp only [Balance.mapSlope]
    norm_num
  · simp only [Balance.calculateRatio]
    rw [if_pos (by rw [zero_mul])]

/-- C3 amended: the core operations perform no domain validation at all —
for every real input (in range or not) `mapD50` returns a positive real
number, and `calculateRatio` always returns either the `Infinity` sentinel
or a finite value, never failing. -/
theorem c3_no_domain_validation (Qs D50 Qw S : ℝ) :
    0 < Balance.mapD50 D50 ∧
    (Balance.calculateRatio Qs D50 Qw S = JSNum.inf ∨
      ∃ r : ℝ, Balance.calculateRatio Qs D50 Qw S = JSNum.fin r) := by
  refine ⟨Balance.mapD50_pos D50, ?_⟩
  simp only [Balance.calculateRatio]
  split_ifs
  · exact Or.inl rfl
  · exact Or.inr ⟨_, rfl⟩

/-- C4: monotonicity of the balance ratio for parameters in `[1, 100]`:
with `D50`, `Qw`, `S` fixed, the ratio is non-decreasing in `Qs`; with `Qs`,
`D50`, `S` fixed, the ratio is non-increasing in `Qw` (in the JavaScript
order on possibly-infinite numbers). -/
theorem c4_ratio_monotonicity (Qs Qt D50 Qw Qwt S : ℝ)
    (hQs1 : 1 ≤ Qs) (hQs2 : Qs ≤ 100) (hQt1 : 1 ≤ Qt) (hQt2 : Qt ≤ 100)
    (hD1 : 1 ≤ D50) (hD2 : D50 ≤ 100) (hQw1 : 1 ≤ Qw) (hQw2 : Qw ≤ 100)
    (hQwt1 : 1 ≤ Qwt) (hQwt2 : Qwt ≤ 100) (hS1 : 1 ≤ S) (hS2 : S ≤ 100) :
    (Qs ≤ Qt →
      jsLe (Balance.calculateRatio Qs D50 Qw S) (Balance.calculateRatio Qt D50 Qw S)) ∧
    (Qw ≤ Qwt →
      jsLe (Balance.calculateRatio Qs D50 Qwt S) (Balance.calculateRatio Qs D50 Qw S)) := by
  have hms : 0 < Balance.mapSlope S := Balance.mapSlope_pos S (by linarith)
  have hw : 0 < Qw * Balance.mapSlope S := mul_pos (by linarith) hms
  have hwt : 0 < Qwt * Balance.mapSlope S := mul_pos (by linarith) hms
  have hd : 0 < Balance.mapD50 D50 := Balance.mapD50_pos D50
  constructor
  · intro h
    rw [Balance.calculateRatio_fin Qs D50 Qw S hw.ne',
      Balance.calculateRatio_fin Qt D50 Qw S hw.ne']
    show (Qs * Balance.mapD50 D50) / (Qw * Balance.mapSlope S) ≤
      (Qt * Balance.mapD50 D50) / (Qw * Balance.mapSlope S)
    exact (div_le_div_iff_of_pos_right hw).mpr (mul_le_mul_of_nonneg_right h hd.le)
  · intro h
    rw [Balance.calculateRatio_fin Qs D50 Qwt S hwt.ne',
      Balance.calculateRatio_fin Qs D50 Qw S hw.ne']
    show (Qs * Balance.mapD50 D50) / (Qwt * Balance.mapSlope S) ≤
      (Qs * Balance.mapD50 D50) / (Qw * Balance.mapSlope S)
    exact div_le_div_of_nonneg_left (by nlinarith) hw
      (mul_le_mul_of_nonneg_right h hms.le)

/-- C4 witness: monotonicity at `Qs: 50 ≤ 60` and `Qw: 50 ≤ 60` with the
other parameters at their midpoints. -/
theorem c4_ratio_monotonicity_witness :
    jsLe (Balance.calculateRatio 50 50 50 50) (Balance.calculateRatio 60 50 50 50) ∧
    jsLe (Balance.calculateRatio 50 50 60 50) (Balance.calculateRatio 50 50 50 50) :=
  ⟨(c4_ratio_monotonicity 50 60 50 50 60 50 (by norm_num) (by norm_num) (by norm_num)
      (by norm_num) (by norm_num) (by norm_num) (by norm_num) (by norm_num) (by norm_num)
      (by norm_num) (by norm_num) (by norm_num)).1 (by norm_num),
    (c4_ratio_monotonicity 50 60 50 50 60 50 (by norm_num) (by norm_num) (by norm_num)
      (by norm_num) (by norm_num) (by norm_num) (by norm_num) (by norm_num) (by norm_num)
      (by norm_num) (by norm_num) (by norm_num)).2 (by norm_num)⟩

/-- C9: process-tag/regime consistency: for every ratio, `Qw` and `S`, the
list returned by `getActiveProcesses` is non-empty and every element's
`type` field equals the regime string returned by `getState`. -/
theorem c9_process_regime_invariant (ratio : JSNum) (Qw S : ℝ) :
    Balance.getActiveProcesses ratio Qw S ≠ [] ∧
    ∀ p ∈ Balance.getActiveProcesses ratio Qw S, p.type = Balance.getState ratio := by
  rcases Balance.getState_cases ratio with h | h | h <;>
    simp only [Balance.getActiveProcesses, h] <;>
    constructor
  · simp
  · intro p hp
    split_ifs at hp <;> aesop
  · simp
  · intro p hp
    split_ifs at hp <;> aesop
  · simp
  · intro p hp
    simp_all
    rcases hp with rfl | rfl <;> rfl

/-- C9 witness: the invariant at the equilibrium ratio `1` with midpoint
`Qw`, `S`; the second process of the equilibrium list carries the
`equilibrium` tag. -/
theorem c9_process_regime_invariant_witness :
    Balance.getActiveProcesses (JSNum.fin 1) 50 50 ≠ [] ∧
    (Balance.Process.mk "Dynamic equilibrium" "equilibrium").type =
      Balance.getState (JSNum.fin 1) := by
  have hs : Balance.getState (JSNum.fin 1) = "equilibrium" := by
    have h1 : Balance.getImbalanceIndex (JSNum.fin 1) = 0 := by
      rw [Balance.getImbalanceIndex_fin]
      rw [min_eq_right (by norm_num : (1:ℝ) ≤ 100), max_eq_right (by norm_num : (0.01:ℝ) ≤ 1)]
      exact Real.logb_one
    simp only [Balance.getState, h1]
    rw [if_neg (by norm_num), if_neg (by norm_num)]
  have hmem : Balance.Process.mk "Dynamic equilibrium" "equilibrium" ∈
      Balance.getActiveProcesses (JSNum.fin 1) 50 50 := by
    simp [Balance.getActiveProcesses, hs]
  exact ⟨(c9_process_regime_invariant (JSNum.fin 1) 50 50).1,
    (c9_process_regime_invariant (JSNum.fin 1) 50 50).2 _ hmem⟩

/-- C1: end-to-end midpoint scenario: with `Qs = D50 = Qw = S = 50` the
ratio classifies as `equilibrium` and the channel pattern is `meandering`. -/
theorem c1_midpoint_scenario :
    Balance.getState (Balance.calculateRatio 50 50 50 50) = "equilibrium" ∧
    Balance.getChannelPattern 50 50 50 50 (Balance.calculateRatio 50 50 50 50) =
      "meandering" := by
  have hw : (50:ℝ) * Balance.mapSlope 50 ≠ 0 := by
    rw [Balance.mapSlope_50]; norm_num
  have hcr : Balance.calculateRatio 50 50 50 50 =
      JSNum.fin ((10:ℝ) ^ ((16:ℝ)/33) / 3.053) := by
    rw [Balance.calculateRatio_fin 50 50 50 50 hw, Balance.mapD50_50, Balance.mapSlope_50]
    congr 1
    rw [mul_div_mul_left _ _ (by norm_num : (50:ℝ) ≠ 0)]
  have ht_pos : (0:ℝ) < (10:ℝ) ^ ((16:ℝ)/33) := Real.rpow_pos_of_pos (by norm_num) _
  have ht1 : (1:ℝ) ≤ (10:ℝ) ^ ((16:ℝ)/33) :=
    le_ten_rpow 1 ((16:ℝ)/33) 16 33 (by norm_num) (by norm_num) (by norm_num) (by norm_num)
  have ht5 : (10:ℝ) ^ ((16:ℝ)/33) ≤ 5 :=
    ten_rpow_le 5 ((16:ℝ)/33) 16 33 (by norm_num) (by norm_num) (by norm_num) (by norm_num)
  have hr_lo : (0.01:ℝ) ≤ (10:ℝ) ^ ((16:ℝ)/33) / 3.053 := by
    rw [le_div_iff₀ (by norm_num : (0:ℝ) < 3.053)]
    nlinarith
  have hr_hi : (10:ℝ) ^ ((16:ℝ)/33) / 3.053 ≤ 5 / 3.053 :=
    div_le_div_of_nonneg_right ht5 (by norm_num)
  have hr100 : (10:ℝ) ^ ((16:ℝ)/33) / 3.053 ≤ 100 := le_trans hr_hi (by norm_num)
  have hL_ub : Real.logb 10 (3.053:ℝ) ≤ 353/660 :=
    logb10_le 3.053 (353/660) 353 660 (by norm_num) (by norm_num) (by norm_num) (by norm_num)
  have hL_lb : (287/660:ℝ) ≤ Real.logb 10 3.053 :=
    le_logb10 3.053 (287/660) 287 660 (by norm_num) (by norm_num) (by norm_num) (by norm_num)
  have hsplit : Real.logb 10 ((10:ℝ) ^ ((16:ℝ)/33) / 3.053) =
      16/33 - Real.logb 10 3.053 := by
    rw [Real.logb_div ht_pos.ne' (by norm_num),
      Real.logb_rpow (by norm_num) (by norm_num)]
  constructor
  · rw [hcr]
    simp only [Balance.getState, Balance.getImbalanceIndex_fin]
    simp only [min_eq_right hr100, max_eq_right hr_lo, hsplit]
    rw [if_neg (by rw [not_lt]; linarith), if_neg (by rw [not_lt]; linarith)]
  · rw [hcr]
    simp only [Balance.getChannelPattern]
    have haggr : Balance.aggradationFactor (JSNum.fin ((10:ℝ) ^ ((16:ℝ)/33) / 3.053)) ≤
        0.2 := by
      simp only [Balance.aggradationFactor]
      split_ifs with h1
      · calc min (((10:ℝ) ^ ((16:ℝ)/33) / 3.053 - 1) * 0.3) 0.3
            ≤ ((10:ℝ) ^ ((16:ℝ)/33) / 3.053 - 1) * 0.3 := min_le_left _ _
          _ ≤ (5 / 3.053 - 1) * 0.3 := by nlinarith
          _ ≤ 0.2 := by norm_num
      · norm_num
    have hbi : Balance.braidingIndex 50 50 (JSNum.fin ((10:ℝ) ^ ((16:ℝ)/33) / 3.053)) ≤
        0.5 := by
      simp only [Balance.braidingIndex]
      have h35 : ((50:ℝ)/100) * 0.35 + ((50:ℝ)/100) * 0.25 = 0.3 := by norm_num
      linarith
    rw [if_neg (not_lt.mpr hbi), if_neg (by norm_num : ¬((50:ℝ)/100 < 0.15))]

/-- C2 counterexample: at the claim's example input `Qs = 50`, `D50 = 50`,
`Qw = 10`, `S = 50` the code returns `braided`, not `straight`: the low
discharge drives the balance ratio above 2, so the aggradation factor
saturates at 0.3 and the braiding index reaches 0.6 > 0.5, which is checked
before the low-discharge rule. -/
theorem c2_counterexample :
    Balance.getChannelPattern 50 50 10 50 (Balance.calculateRatio 50 50 10 50) = "braided" ∧
    Balance.getChannelPattern 50 50 10 50 (Balance.calculateRatio 50 50 10 50) ≠
      "straight" := by
  have hw : (10:ℝ) * Balance.mapSlope 50 ≠ 0 := by
    rw [Balance.mapSlope_50]; norm_num
  have hcr : Balance.calculateRatio 50 50 10 50 =
      JSNum.fin ((50 * (10:ℝ) ^ ((16:ℝ)/33)) / (10 * 3.053)) := by
    rw [Balance.calculateRatio_fin 50 50 10 50 hw, Balance.mapD50_50, Balance.mapSlope_50]
  have ht2 : (2:ℝ) ≤ (10:ℝ) ^ ((16:ℝ)/33) :=
    le_ten_rpow 2 ((16:ℝ)/33) 16 33 (by norm_num) (by norm_num) (by norm_num) (by norm_num)
  have hr2 : (2:ℝ) ≤ (50 * (10:ℝ) ^ ((16:ℝ)/33)) / (10 * 3.053) := by
    rw [le_div_iff₀ (by norm_num : (0:ℝ) < 10 * 3.053)]
    nlinarith
  have hmain : Balance.getChannelPattern 50 50 10 50 (Balance.calculateRatio 50 50 10 50) =
      "braided" := by
    rw [hcr]
    simp only [Balance.getChannelPattern]
    have haggr : Balance.aggradationFactor
        (JSNum.fin ((50 * (10:ℝ) ^ ((16:ℝ)/33)) / (10 * 3.053))) = 0.3 := by
      simp only [Balance.aggradationFactor]
      rw [if_pos (by linarith : (1:ℝ) < (50 * (10:ℝ) ^ ((16:ℝ)/33)) / (10 * 3.053))]
      exact min_eq_right (by nlinarith)
    have hbi : Balance.braidingIndex 50 50
        (JSNum.fin ((50 * (10:ℝ) ^ ((16:ℝ)/33)) / (10 * 3.053))) > 0.5 := by
      simp only [Balance.braidingIndex, haggr]
      norm_num
    rw [if_pos hbi]
  refine ⟨hmain, ?_⟩
  rw [hmain]
  simp

/-- C2 amended: with `Qs = 100, D50 = 100, Qw = 50, S = 50` the braiding
index exceeds 0.5 and the pattern is `braided`; the `straight` result for
low discharge `Qw = 10` requires low sediment parameters as well (e.g.
`Qs = 10, D50 = 10, S = 50`), because with moderate `Qs = D50 = 50` the
braiding check (which fires first) already returns `braided`. -/
theorem c2_pattern_boundaries :
    Balance.braidingIndex 100 100 (Balance.calculateRatio 100 100 50 50) > 0.5 ∧
    Balance.getChannelPattern 100 100 50 50 (Balance.calculateRatio 100 100 50 50) =
      "braided" ∧
    Balance.getChannelPattern 10 10 10 50 (Balance.calculateRatio 10 10 10 50) =
      "straight" := by
  have hw1 : (50:ℝ) * Balance.mapSlope 50 ≠ 0 := by
    rw [Balance.mapSlope_50]; norm_num
  have hcr1 : Balance.calculateRatio 100 100 50 50 =
      JSNum.fin ((100 * 100) / (50 * 3.053)) := by
    rw [Balance.calculateRatio_fin 100 100 50 50 hw1, Balance.mapD50_100, Balance.mapSlope_50]
  have haggr1 : Balance.aggradationFactor (JSNum.fin ((100 * 100) / (50 * (3.053:ℝ)))) =
      0.3 := by
    simp only [Balance.aggradationFactor]
    rw [if_pos (by norm_num : (1:ℝ) < (100 * 100) / (50 * (3.053:ℝ)))]
    exact min_eq_right (by norm_num)
  have hbi1 : Balance.braidingIndex 100 100 (Balance.calculateRatio 100 100 50 50) >
      0.5 := by
    rw [hcr1]
    simp only [Balance.braidingIndex, haggr1]
    norm_num
  refine ⟨hbi1, ?_, ?_⟩
  · simp only [Balance.getChannelPattern]
    rw [if_pos hbi1]
  · have hw3 : (10:ℝ) * Balance.mapSlope 50 ≠ 0 := by
      rw [Balance.mapSlope_50]; norm_num
    have hcr3 : Balance.calculateRatio 10 10 10 50 =
        JSNum.fin ((10 * (10:ℝ) ^ (-(8:ℝ)/11)) / (10 * 3.053)) := by
      rw [Balance.calculateRatio_fin 10 10 10 50 hw3, Balance.mapD50_10, Balance.mapSlope_50]
    have hu1 : (10:ℝ) ^ (-(8:ℝ)/11) ≤ 1 :=
      Real.rpow_le_one_of_one_le_of_nonpos (by norm_num) (by norm_num)
    have hu0 : (0:ℝ) < (10:ℝ) ^ (-(8:ℝ)/11) := Real.rpow_pos_of_pos (by norm_num) _
    have hr3 : (10 * (10:ℝ) ^ (-(8:ℝ)/11)) / (10 * 3.053) ≤ 1 := by
      rw [div_le_one (by norm_num : (0:ℝ) < 10 * 3.053)]
      nlinarith
    rw [hcr3]
    simp only [Balance.getChannelPattern]
    have haggr3 : Balance.aggradationFactor
        (JSNum.fin ((10 * (10:ℝ) ^ (-(8:ℝ)/11)) / (10 * 3.053))) = 0 := by
      simp only [Balance.aggradationFactor]
      rw [if_neg (not_lt.mpr hr3)]
    have hbi3 : Balance.braidingIndex 10 10
        (JSNum.fin ((10 * (10:ℝ) ^ (-(8:ℝ)/11)) / (10 * 3.053))) ≤ 0.5 := by
      simp only [Balance.braidingIndex, haggr3]
      norm_num
    rw [if_neg (not_lt.mpr hbi3), if_pos (by norm_num : (10:ℝ)/100 < 0.15)]
